import Mathlib

/-!
Verification of the storage-and-ledger core of the django-warehouse-management
repository.

The data model is embedded from the Django model declarations:
`apps/warehouses/models.py` (Warehouse, Corridor, Cell, ProductLocation) and
`apps/products/models.py` (Product, StockMovement).  Django field types are
rendered as follows: `PositiveIntegerField` becomes `Nat`, `IntegerField`
becomes `Int`, nullable `DecimalField` becomes `Option Rat`, `BooleanField`
becomes `Bool`, nullable `CharField` becomes `Option String`, and foreign keys
become numeric ids (the database-assigned primary key).  Presentation-only
fields (names, descriptions, QR images, timestamps) are omitted; the list
order of `stock_movements` stands for the timestamp order of ledger entries.

The repository ships only the model layer: the stock-ledger append, the
placement coordinator and the capacity policy are described by the
specification but have no implementation under the application code, so
those operations are modelled from the specification (each such definition
carries a doc comment saying so) and verified against it.
-/

namespace WMS

/-- Error taxonomy.  Modelled from the spec: section 7 lists the structured
errors; the repository declares no error types of its own. -/
inductive PlaceError
  | DuplicateCode
  | CapacityExceeded
  | CellUnavailable
  | InsufficientStock
  | LockTimeout
  | NotFound
  deriving DecidableEq, Repr

/-- Movement kinds, from `StockMovement.MovementType` in
`apps/products/models.py` (choices in, out, adjustment, return, damage). -/
inductive MovementType
  | IN
  | OUT
  | ADJUSTMENT
  | RETURN
  | DAMAGE
  deriving DecidableEq, Repr

/-- Ledger entry, from `StockMovement` in `apps/products/models.py`:
`quantity` is a signed `IntegerField`, while `previous_stock` and
`new_stock` are `PositiveIntegerField`s (hence `Nat`). -/
structure StockMovement where
  product : Nat
  movement_type : MovementType
  quantity : Int
  previous_stock : Nat
  new_stock : Nat
  deriving DecidableEq, Repr

/-- Product, from `Product` in `apps/products/models.py`; `stock_quantity`
is a `PositiveIntegerField` with default 0, `weight` and the dimensions are
nullable `DecimalField`s. -/
structure Product where
  id : Nat
  stock_quantity : Nat
  weight : Option Rat
  length : Option Rat
  width : Option Rat
  height : Option Rat
  deriving DecidableEq, Repr

/-- The current quantity of a product given its ledger (movements in
timestamp order): the `new_stock` of the most recent movement, or 0 when no
movement exists (spec section 4.3). -/
def currentQuantity (l : List StockMovement) : Nat :=
  match l.getLast? with
  | some m => m.new_stock
  | none => 0

/-- Helper: the `new_stock` of the last movement, or `prev` when the list is
empty; `currentQuantity l = lastFrom 0 l`. -/
def lastFrom (prev : Nat) (l : List StockMovement) : Nat :=
  match l.getLast? with
  | some m => m.new_stock
  | none => prev

/-- Modelled from the spec: section 4.3 `appendMovement` — the repository
declares the `StockMovement` fields but contains no append operation.  Reads
the current quantity, computes `newQuantity = current + delta`; if negative,
fails with `InsufficientStock` and appends nothing, otherwise produces the
movement with `previous_stock = current` and `new_stock = newQuantity`. -/
def appendMovement (productId : Nat) (mt : MovementType) (delta : Int) (current : Nat) :
    Except PlaceError StockMovement :=
  let newQuantity : Int := (current : Int) + delta
  if newQuantity < 0 then Except.error PlaceError.InsufficientStock
  else Except.ok
    { product := productId, movement_type := mt, quantity := delta,
      previous_stock := current, new_stock := newQuantity.toNat }

/-- Modelled from the spec: appending a movement to a product ledger. -/
def ledgerAppend (l : List StockMovement) (productId : Nat) (mt : MovementType) (delta : Int) :
    Except PlaceError (List StockMovement) :=
  match appendMovement productId mt delta (currentQuantity l) with
  | Except.ok m => Except.ok (l ++ [m])
  | Except.error e => Except.error e

/-- Modelled from the spec: one committed append attempt — a failed append
leaves the ledger unchanged (the failure is surfaced to the caller and
nothing is persisted). -/
def ledgerCommit (l : List StockMovement) (productId : Nat) (r : MovementType × Int) :
    List StockMovement :=
  match ledgerAppend l productId r.1 r.2 with
  | Except.ok l2 => l2
  | Except.error _ => l

/-- Modelled from the spec: the ledger that results from a sequence of
movement requests for one product, starting from an empty ledger; requests
rejected with `InsufficientStock` append nothing. -/
def processRequests (productId : Nat) (reqs : List (MovementType × Int)) :
    List StockMovement :=
  reqs.foldl (fun l r => ledgerCommit l productId r) []

/-- The ledger chaining invariant of spec section 3 as an executable check:
each entry satisfies `new_stock = previous_stock + quantity` and
`previous_stock` equals the previous entry's `new_stock` (`prev` for the
first entry). -/
def chainFromB (prev : Nat) : List StockMovement → Bool
  | [] => true
  | m :: rest =>
    (m.previous_stock == prev &&
      ((m.new_stock : Int) == (m.previous_stock : Int) + m.quantity)) &&
    chainFromB m.new_stock rest

/-- Storage cell, from `Cell` in `apps/warehouses/models.py`; `id` is the
database primary key, `number` the sequence number within the corridor,
`max_weight` and `max_volume` nullable capacities, `is_occupied` defaults
to `False`. -/
structure Cell where
  id : Nat
  number : Nat
  max_weight : Option Rat
  max_volume : Option Rat
  is_occupied : Bool
  is_active : Bool
  is_reserved : Bool
  deriving DecidableEq, Repr

/-- Corridor, from `Corridor` in `apps/warehouses/models.py`; `cells` is the
reverse foreign-key collection `corridor.cells`. -/
structure Corridor where
  number : Nat
  cell_count : Nat
  cells : List Cell
  is_active : Bool
  deriving DecidableEq, Repr

/-- Warehouse, from `Warehouse` in `apps/warehouses/models.py`; `corridors`
is the reverse foreign-key collection `warehouse.corridors`. -/
structure Warehouse where
  code : String
  corridor_count : Nat
  corridors : List Corridor
  is_active : Bool
  deriving DecidableEq, Repr

/-- Default of `Warehouse.corridor_count` (`default=5`). -/
def corridor_count_default : Nat := 5

/-- Default of `Corridor.cell_count` (`default=10`). -/
def cell_count_default : Nat := 10

/-- Validator of `Warehouse.corridor_count`:
`MinValueValidator(1), MaxValueValidator(50)`. -/
def corridor_count_valid (n : Nat) : Bool := decide (1 ≤ n ∧ n ≤ 50)

/-- Validator of `Corridor.cell_count`:
`MinValueValidator(1), MaxValueValidator(100)`. -/
def cell_count_valid (n : Nat) : Bool := decide (1 ≤ n ∧ n ≤ 100)

/-- Validator of `Corridor.number`:
`MinValueValidator(1), MaxValueValidator(100)`. -/
def corridor_number_valid (n : Nat) : Bool := decide (1 ≤ n ∧ n ≤ 100)

/-- Validator of `Cell.number`:
`MinValueValidator(1), MaxValueValidator(1000)`. -/
def cell_number_valid (n : Nat) : Bool := decide (1 ≤ n ∧ n ≤ 1000)

/-- `Corridor.create_default_cells`: creates cells numbered
`1 .. cell_count`, each with the `Cell` field defaults (`is_occupied=False`,
`is_active=True`, `is_reserved=False`, capacities null); the primary key is
database-assigned and immaterial here, rendered as 0. -/
def create_default_cells (cell_count : Nat) : List Cell :=
  (List.range cell_count).map (fun i =>
    { id := 0, number := i + 1, max_weight := none, max_volume := none,
      is_occupied := false, is_active := true, is_reserved := false })

/-- Saving a new corridor: `Corridor.save` creates its default cells
(`create_default_cells`) per its `cell_count`.  Corridor uses the implicit
auto-increment primary key, which is null until the first insert, so its
`is_new` test (`self.pk is None`) does hold on creation and the cell
fan-out really runs. -/
def saveNewCorridor (number cell_count : Nat) : Corridor :=
  { number := number, cell_count := cell_count,
    cells := create_default_cells cell_count, is_active := true }

/-- `Warehouse.create_default_corridors`: creates corridors numbered
`1 .. corridor_count`, each with the default `cell_count` (10); saving each
corridor creates its default cells. -/
def create_default_corridors (corridor_count : Nat) : List Corridor :=
  (List.range corridor_count).map (fun i =>
    saveNewCorridor (i + 1) cell_count_default)

/-- Result of the test `self.pk is None` on a freshly constructed, unsaved
`Warehouse`: `Warehouse.id` is a `UUIDField(primary_key=True,
default=uuid.uuid4)`, and Django applies callable field defaults in the
model constructor, so the pk of an unsaved warehouse is already non-null
and the test is false on every creation path. -/
def warehouse_pk_is_none : Bool := false

/-- Saving a new warehouse (`Warehouse.save` on a freshly constructed row):
stores the code and corridor count, computes `is_new := self.pk is None`,
and runs `create_default_corridors` only when `is_new` — which never holds
for the UUID primary key, so the corridor fan-out never runs and the new
warehouse has no corridors. -/
def createWarehouse (code : String) (corridor_count : Nat) : Warehouse :=
  { code := code, corridor_count := corridor_count,
    corridors :=
      if warehouse_pk_is_none then create_default_corridors corridor_count else [],
    is_active := true }

/-- `Corridor.occupied_cells`: `self.cells.filter(is_occupied=True).count()`. -/
def Corridor.occupied_cells (co : Corridor) : Nat :=
  (co.cells.filter (fun c => c.is_occupied)).length

/-- `Corridor.occupancy_rate`: `occupied / total * 100`, 0 when the corridor
has no cells. -/
def Corridor.occupancy_rate (co : Corridor) : Rat :=
  if co.cells.length = 0 then 0
  else ((Corridor.occupied_cells co : Rat) / (co.cells.length : Rat)) * 100

/-- `Warehouse.total_cells`: sum of `corridor.cells.count()` over the
corridors. -/
def Warehouse.total_cells (w : Warehouse) : Nat :=
  (w.corridors.map (fun co => co.cells.length)).sum

/-- `Warehouse.occupied_cells`: sum of `corridor.occupied_cells` over the
corridors. -/
def Warehouse.occupied_cells (w : Warehouse) : Nat :=
  (w.corridors.map Corridor.occupied_cells).sum

/-- `Warehouse.occupancy_rate`: `occupied_cells / total_cells * 100`, 0 when
the warehouse has no cells. -/
def Warehouse.occupancy_rate (w : Warehouse) : Rat :=
  if Warehouse.total_cells w = 0 then 0
  else ((Warehouse.occupied_cells w : Rat) / (Warehouse.total_cells w : Rat)) * 100

/-- The warehouse rate the source does NOT compute: the mean of the
corridor-level rates.  Stated only to separate the implemented aggregation
(sum of counts, then divide) from averaging of rates. -/
def corridorRateAverage (w : Warehouse) : Rat :=
  if w.corridors.length = 0 then 0
  else (w.corridors.map Corridor.occupancy_rate).sum / (w.corridors.length : Rat)

/-- Decimal digit character, `'0'` + d. -/
def digitChar (d : Nat) : Char := Char.ofNat (48 + d)

/-- Big-endian decimal digits of `n`, driven by a fuel argument
(`fuel ≥ n` suffices); empty for `n = 0`. -/
def decCharsAux (fuel : Nat) (n : Nat) : List Char :=
  match fuel with
  | 0 => []
  | fuel' + 1 =>
    if n = 0 then [] else decCharsAux fuel' (n / 10) ++ [digitChar (n % 10)]

/-- Decimal rendering of a natural number (Python `str`). -/
def decChars (n : Nat) : List Char :=
  if n = 0 then ['0'] else decCharsAux (n + 1) n

/-- Python's `{n:0wd}` format item: the decimal digits of `n` left-padded
with zeros to a minimum width `w`. -/
def zpad (w n : Nat) : List Char :=
  List.replicate (w - (decChars n).length) '0' ++ decChars n

/-- Reads a digit string back as a number (used to show the padded
renderings are injective). -/
def charsVal (l : List Char) : Nat :=
  l.foldl (fun acc c => 10 * acc + (c.toNat - 48)) 0

/-- `Cell.location_code`:
`f"W{self.corridor.warehouse.code}-C{self.corridor.number:02d}-H{self.number:03d}"`,
with the foreign-key path `cell → corridor → warehouse` passed explicitly. -/
def location_code (w : Warehouse) (co : Corridor) (c : Cell) : String :=
  String.mk ('W' :: (w.code.data ++ ('-' :: 'C' ::
    (zpad 2 co.number ++ ('-' :: 'H' :: zpad 3 c.number)))))

/-- Placement, from `ProductLocation` in `apps/warehouses/models.py`:
foreign keys rendered as ids, `quantity` a `PositiveIntegerField`,
`batch_number` a nullable `CharField`. -/
structure ProductLocation where
  product : Nat
  cell : Nat
  quantity : Nat
  batch_number : Option String
  deriving DecidableEq, Repr

/-- The persisted store the placement coordinator acts on: the `products`,
`cells`, `product_locations` and `stock_movements` tables (spec section 6). -/
structure CoordState where
  products : List Product
  cells : List Cell
  product_locations : List ProductLocation
  stock_movements : List StockMovement
  deriving DecidableEq, Repr

/-- The `unique_together` key of `ProductLocation`:
`(product, cell, batch_number)`. -/
def plKey (p : ProductLocation) : Nat × Nat × Option String :=
  (p.product, p.cell, p.batch_number)

/-- Whether a placement row has the given `(product, cell, batch)` key. -/
def matchesKey (p : ProductLocation) (pid cid : Nat) (batch : Option String) : Bool :=
  decide (p.product = pid ∧ p.cell = cid ∧ p.batch_number = batch)

/-- Row lookup on the `(product, cell, batch)` key. -/
def findPlacement (pls : List ProductLocation) (pid cid : Nat) (batch : Option String) :
    Option ProductLocation :=
  pls.find? (fun p => matchesKey p pid cid batch)

/-- Product row lookup by primary key. -/
def findProduct (st : CoordState) (pid : Nat) : Option Product :=
  st.products.find? (fun p => p.id == pid)

/-- The ledger of one product: its movements in timestamp order. -/
def movementsOf (st : CoordState) (pid : Nat) : List StockMovement :=
  st.stock_movements.filter (fun m => m.product == pid)

/-- Derived current stock of a product (spec section 4.3
`currentQuantity`). -/
def productQuantity (st : CoordState) (pid : Nat) : Nat :=
  currentQuantity (movementsOf st pid)

/-- Sum of the placement quantities currently in a cell. -/
def cellQuantitySum (pls : List ProductLocation) (cid : Nat) : Nat :=
  ((pls.filter (fun p => p.cell == cid)).map (fun p => p.quantity)).sum

/-- Modelled from the spec: unit volume of a product from its stored
dimensions (cm), 0 when a dimension is unset; the source stores the
dimensions but computes no volume. -/
def unitVolume (p : Product) : Rat :=
  match p.length, p.width, p.height with
  | some l, some w, some h => l * w * h
  | _, _, _ => 0

/-- Modelled from the spec: section 4.2 — the existing load of a cell is
recomputed at call time by summing the current placements. -/
def existingWeight (st : CoordState) (cid : Nat) : Rat :=
  ((st.product_locations.filter (fun p => p.cell == cid)).map (fun p =>
    (p.quantity : Rat) * (((findProduct st p.product).bind Product.weight).getD 0))).sum

/-- Modelled from the spec: volume analogue of `existingWeight`. -/
def existingVolume (st : CoordState) (cid : Nat) : Rat :=
  ((st.product_locations.filter (fun p => p.cell == cid)).map (fun p =>
    (p.quantity : Rat) * (((findProduct st p.product).map unitVolume).getD 0))).sum

/-- Modelled from the spec: weight bound check of section 4.2; a null
`max_weight` is unconstrained. -/
def weightExceeded (st : CoordState) (cell : Cell) (incomingWeight : Rat) : Bool :=
  match cell.max_weight with
  | some mw => decide (mw < existingWeight st cell.id + incomingWeight)
  | none => false

/-- Modelled from the spec: volume bound check of section 4.2; a null
`max_volume` is unconstrained. -/
def volumeExceeded (st : CoordState) (cell : Cell) (incomingVolume : Rat) : Bool :=
  match cell.max_volume with
  | some mv => decide (mv < existingVolume st cell.id + incomingVolume)
  | none => false

/-- Modelled from the spec: section 4.2 `validatePlacement` — checks
`is_active`, `not is_reserved`, then the weight and volume bounds. -/
def validatePlacement (st : CoordState) (cell : Cell) (incomingWeight incomingVolume : Rat) :
    Except PlaceError Unit :=
  if cell.is_active = false then Except.error PlaceError.CellUnavailable
  else if cell.is_reserved = true then Except.error PlaceError.CellUnavailable
  else if weightExceeded st cell incomingWeight = true then
    Except.error PlaceError.CapacityExceeded
  else if volumeExceeded st cell incomingVolume = true then
    Except.error PlaceError.CapacityExceeded
  else Except.ok ()

/-- Modelled from the spec: section 4.4 step 4 upsert of the
`ProductLocation` row for a `(product, cell, batch)` key — an existing row
is mutated in place (or removed when the quantity reaches 0), a missing row
is created only for a positive quantity. -/
def setPlacement (pls : List ProductLocation) (pid cid : Nat) (batch : Option String)
    (qty : Nat) : List ProductLocation :=
  match pls with
  | [] =>
    if qty = 0 then []
    else [{ product := pid, cell := cid, quantity := qty, batch_number := batch }]
  | p :: rest =>
    if matchesKey p pid cid batch then
      (if qty = 0 then rest else { p with quantity := qty } :: rest)
    else p :: setPlacement rest pid cid batch qty

/-- The quantity currently recorded for a `(product, cell, batch)` key, 0
when no row exists. -/
def oldPlacementQty (pls : List ProductLocation) (pid cid : Nat) (batch : Option String) : Nat :=
  match findPlacement pls pid cid batch with
  | some p => p.quantity
  | none => 0

/-- Modelled from the spec: the committed effect of one placement call
(section 4.4 steps 4–6): the upserted placement row, the cell's
`is_occupied` recomputed from the sum of all placements in that cell, the
product's cached `stock_quantity`, and the appended ledger entry — all as
one unit. -/
def commitPlacement (st : CoordState) (pid cid : Nat) (batch : Option String)
    (qty : Nat) (m : StockMovement) : CoordState :=
  { products := st.products.map (fun p =>
      if p.id == pid then { p with stock_quantity := m.new_stock } else p)
    cells := st.cells.map (fun c =>
      if c.id == cid then
        { c with is_occupied :=
            decide (0 < cellQuantitySum (setPlacement st.product_locations pid cid batch qty) cid) }
      else c)
    product_locations := setPlacement st.product_locations pid cid batch qty
    stock_movements := st.stock_movements ++ [m] }

/-- Modelled from the spec: section 4.4 `place` — the placement coordinator.
Looks up the cell and the product (`NotFound` otherwise), runs the capacity
policy when the delta is positive, appends the ledger movement with the kind
inferred from the sign, guards the cell-local quantity, and commits the
placement, occupancy and cache updates atomically; returns the new product
quantity.  Locking (step 1) is a concurrency concern outside this
sequential model. -/
def place (st : CoordState) (productId cellId : Nat) (delta : Int) (batch : Option String)
    (incomingWeight incomingVolume : Rat) : Except PlaceError (CoordState × Nat) :=
  match st.cells.find? (fun c => c.id == cellId), findProduct st productId with
  | none, _ => Except.error PlaceError.NotFound
  | some _, none => Except.error PlaceError.NotFound
  | some cell, some _ =>
    match (if 0 < delta then validatePlacement st cell incomingWeight incomingVolume
           else Except.ok ()) with
    | Except.error e => Except.error e
    | Except.ok _ =>
      match appendMovement productId (if 0 < delta then MovementType.IN else MovementType.OUT)
          delta (productQuantity st productId) with
      | Except.error e => Except.error e
      | Except.ok m =>
        if (oldPlacementQty st.product_locations productId cellId batch : Int) + delta < 0 then
          Except.error PlaceError.InsufficientStock
        else
          Except.ok (commitPlacement st productId cellId batch
            ((oldPlacementQty st.product_locations productId cellId batch : Int) + delta).toNat m,
            m.new_stock)

/-- Modelled from the spec: section 4.4 — relocation is an outbound from the
source cell followed by an inbound to the destination in one enclosing
transaction; if either step fails, the whole transaction fails and nothing
is committed. -/
def relocate (st : CoordState) (productId srcCell dstCell qty : Nat) (batch : Option String)
    (w v : Rat) : Except PlaceError CoordState :=
  match place st productId srcCell (-(qty : Int)) batch w v with
  | Except.error e => Except.error e
  | Except.ok (st1, _) =>
    match place st1 productId dstCell (qty : Int) batch w v with
    | Except.error e => Except.error e
    | Except.ok (st2, _) => Except.ok st2

/-- The state observable after a relocation call: the new state on success,
the caller's unchanged state plus the error on rollback. -/
def runRelocate (st : CoordState) (productId srcCell dstCell qty : Nat)
    (batch : Option String) (w v : Rat) : CoordState × Option PlaceError :=
  match relocate st productId srcCell dstCell qty batch w v with
  | Except.ok st2 => (st2, none)
  | Except.error e => (st, some e)

/-- The occupancy invariant of spec section 3 as an executable check: every
cell's `is_occupied` flag equals whether the placements in that cell sum to
a positive quantity. -/
def OccInvB (st : CoordState) : Bool :=
  st.cells.all (fun c =>
    c.is_occupied == decide (0 < cellQuantitySum st.product_locations c.id))

/-- States reachable by committed coordinator operations from a freshly
created hierarchy: initially every cell has the field default
`is_occupied = False` and there are no placements and no movements; each
step is a successful `place` or `relocate`. -/
inductive Reachable : CoordState → Prop
  | init (products : List Product) (cells : List Cell)
      (hc : ∀ c ∈ cells, c.is_occupied = false) :
      Reachable ⟨products, cells, [], []⟩
  | placeStep {st st' : CoordState} {pid cid : Nat} {delta : Int} {batch : Option String}
      {w v : Rat} {n : Nat} (hr : Reachable st)
      (h : place st pid cid delta batch w v = Except.ok (st', n)) : Reachable st'
  | relocateStep {st st' : CoordState} {pid src dst q : Nat} {batch : Option String}
      {w v : Rat} (hr : Reachable st)
      (h : relocate st pid src dst q batch w v = Except.ok st') : Reachable st'

/-- A product with some stock, used in concrete witnesses. -/
def demoProduct : Product :=
  { id := 1, stock_quantity := 10, weight := some 1, length := none, width := none,
    height := none }

/-- An unconstrained source cell holding stock. -/
def demoSrcCell : Cell :=
  { id := 1, number := 1, max_weight := none, max_volume := none,
    is_occupied := true, is_active := true, is_reserved := false }

/-- A destination cell whose weight bound 0 rejects any incoming weight. -/
def demoDstCell : Cell :=
  { id := 2, number := 2, max_weight := some 0, max_volume := none,
    is_occupied := false, is_active := true, is_reserved := false }

/-- A store with 10 units of product 1 placed in cell 1. -/
def demoState : CoordState :=
  { products := [demoProduct], cells := [demoSrcCell, demoDstCell],
    product_locations := [{ product := 1, cell := 1, quantity := 10, batch_number := none }],
    stock_movements := [{ product := 1, movement_type := MovementType.IN, quantity := 10,
                          previous_stock := 0, new_stock := 10 }] }

/-- The store after debiting 3 units of product 1 from cell 1 of
`demoState` (the intermediate state of a relocation). -/
def demoState1 : CoordState :=
  { products := [{ id := 1, stock_quantity := 7, weight := some 1, length := none,
                   width := none, height := none }],
    cells := [demoSrcCell, demoDstCell],
    product_locations := [{ product := 1, cell := 1, quantity := 7, batch_number := none }],
    stock_movements := [{ product := 1, movement_type := MovementType.IN, quantity := 10,
                          previous_stock := 0, new_stock := 10 },
                        { product := 1, movement_type := MovementType.OUT, quantity := -3,
                          previous_stock := 10, new_stock := 7 }] }

/-- A product with no stock yet. -/
def demoInitProduct : Product :=
  { id := 1, stock_quantity := 0, weight := none, length := none, width := none,
    height := none }

/-- A fresh, unoccupied, unconstrained cell. -/
def demoInitCell : Cell :=
  { id := 1, number := 1, max_weight := none, max_volume := none,
    is_occupied := false, is_active := true, is_reserved := false }

/-- A freshly created store: no placements, no movements. -/
def demoInit : CoordState :=
  { products := [demoInitProduct], cells := [demoInitCell], product_locations := [],
    stock_movements := [] }

/-- The store after placing 5 units of product 1 into cell 1 of `demoInit`. -/
def demoAfterPlace : CoordState :=
  { products := [{ id := 1, stock_quantity := 5, weight := none, length := none,
                   width := none, height := none }],
    cells := [{ id := 1, number := 1, max_weight := none, max_volume := none,
                is_occupied := true, is_active := true, is_reserved := false }],
    product_locations := [{ product := 1, cell := 1, quantity := 5, batch_number := none }],
    stock_movements := [{ product := 1, movement_type := MovementType.IN, quantity := 5,
                          previous_stock := 0, new_stock := 5 }] }

/-- The single ledger entry produced by one inbound request of 5. -/
def demoLedgerMovement : StockMovement :=
  { product := 1, movement_type := MovementType.IN, quantity := 5, previous_stock := 0,
    new_stock := 5 }

/-- A placement list with one row, for the upsert-length witness. -/
def demoPls : List ProductLocation :=
  [{ product := 1, cell := 1, quantity := 3, batch_number := none }]

/-- A corridor with no cells. -/
def demoEmptyCorridor : Corridor := { number := 1, cell_count := 0, cells := [], is_active := true }

/-- An occupied cell for the reporting demos. -/
def demoOccCell : Cell :=
  { id := 0, number := 1, max_weight := none, max_volume := none,
    is_occupied := true, is_active := true, is_reserved := false }

/-- An unoccupied cell for the reporting demos. -/
def demoFreeCell (n : Nat) : Cell :=
  { id := 0, number := n, max_weight := none, max_volume := none,
    is_occupied := false, is_active := true, is_reserved := false }

/-- A warehouse whose sum-based occupancy rate (25%) differs from the mean
of its corridor rates (50%): one full 1-cell corridor, one empty 3-cell
corridor. -/
def demoRateWarehouse : Warehouse :=
  { code := "002", corridor_count := 2,
    corridors := [{ number := 1, cell_count := 1, cells := [demoOccCell], is_active := true },
                  { number := 2, cell_count := 3,
                    cells := [demoFreeCell 1, demoFreeCell 2, demoFreeCell 3],
                    is_active := true }],
    is_active := true }

/-- A warehouse with code 001, for the location-code example of spec
section 6. -/
def demoCodeWarehouse : Warehouse :=
  { code := "001", corridor_count := 0, corridors := [], is_active := true }

/-- Corridor number 2 of the location-code example. -/
def demoCodeCorridor : Corridor := { number := 2, cell_count := 0, cells := [], is_active := true }

/-- Corridor number 3, a distinct corridor of the same warehouse. -/
def demoCodeCorridorB : Corridor := { number := 3, cell_count := 0, cells := [], is_active := true }

/-- Cell number 7 of the location-code example. -/
def demoCodeCell : Cell :=
  { id := 0, number := 7, max_weight := none, max_volume := none,
    is_occupied := false, is_active := true, is_reserved := false }

/-! ## Ledger theorems -/

theorem currentQuantity_eq_lastFrom (l : List StockMovement) :
    currentQuantity l = lastFrom 0 l := rfl

theorem lastFrom_cons (prev : Nat) (m : StockMovement) (t : List StockMovement) :
    lastFrom prev (m :: t) = lastFrom m.new_stock t := by
  cases t with
  | nil => rfl
  | cons a t2 =>
    unfold lastFrom
    rw [List.getLast?_cons_cons]
    cases hg : (a :: t2).getLast? with
    | none => simp at hg
    | some x => rfl

theorem chainFromB_append (m : StockMovement) (l : List StockMovement) (prev : Nat)
    (h : chainFromB prev l = true)
    (h1 : m.previous_stock = lastFrom prev l)
    (h2 : (m.new_stock : Int) = (m.previous_stock : Int) + m.quantity) :
    chainFromB prev (l ++ [m]) = true := by
  induction l generalizing prev with
  | nil =>
    simp only [List.nil_append, chainFromB, Bool.and_eq_true, beq_iff_eq]
    exact ⟨⟨h1, h2⟩, trivial⟩
  | cons a t ih =>
    simp only [chainFromB, Bool.and_eq_true, beq_iff_eq] at h
    obtain ⟨⟨ha1, ha2⟩, ht⟩ := h
    rw [lastFrom_cons] at h1
    simp only [List.cons_append, chainFromB, Bool.and_eq_true, beq_iff_eq]
    exact ⟨⟨ha1, ha2⟩, ih a.new_stock ht h1⟩

theorem chainFromB_sum (l : List StockMovement) (prev : Nat)
    (h : chainFromB prev l = true) :
    (lastFrom prev l : Int) = (prev : Int) + (l.map (fun m => m.quantity)).sum := by
  induction l generalizing prev with
  | nil => simp [lastFrom]
  | cons a t ih =>
    simp only [chainFromB, Bool.and_eq_true, beq_iff_eq] at h
    obtain ⟨⟨h1, h2⟩, h3⟩ := h
    rw [lastFrom_cons, ih a.new_stock h3, List.map_cons, List.sum_cons, h2, h1]
    ring

theorem ledgerCommit_chain (l : List StockMovement) (pid : Nat) (r : MovementType × Int)
    (h : chainFromB 0 l = true) : chainFromB 0 (ledgerCommit l pid r) = true := by
  unfold ledgerCommit ledgerAppend appendMovement
  by_cases hneg : (currentQuantity l : Int) + r.2 < 0
  · simp [hneg, h]
  · simp only [hneg, if_false]
    refine chainFromB_append _ l 0 h ?_ ?_
    · exact currentQuantity_eq_lastFrom l
    · exact Int.toNat_of_nonneg (le_of_not_lt hneg)

theorem foldl_ledgerCommit_chain (pid : Nat) (reqs : List (MovementType × Int)) :
    ∀ l : List StockMovement, chainFromB 0 l = true →
    chainFromB 0 (reqs.foldl (fun l2 r => ledgerCommit l2 pid r) l) = true := by
  induction reqs with
  | nil => intro l h; exact h
  | cons r rest ih => intro l h; exact ih _ (ledgerCommit_chain l pid r h)

/-- C2: for a product's ledger built by any sequence of committed movement
requests, every entry satisfies `new_stock = previous_stock + quantity` and
chains to its predecessor's `new_stock` (0 for the first entry); at any
quiescent point the current quantity equals the sum of all deltas and is
never negative. -/
theorem ledger_chain_sum_nonneg (pid : Nat) (reqs : List (MovementType × Int)) :
    chainFromB 0 (processRequests pid reqs) = true ∧
    (currentQuantity (processRequests pid reqs) : Int) =
      ((processRequests pid reqs).map (fun m => m.quantity)).sum ∧
    0 ≤ (currentQuantity (processRequests pid reqs) : Int) := by
  have hc : chainFromB 0 (processRequests pid reqs) = true :=
    foldl_ledgerCommit_chain pid reqs [] rfl
  refine ⟨hc, ?_, Int.natCast_nonneg _⟩
  have hs := chainFromB_sum (processRequests pid reqs) 0 hc
  rw [currentQuantity_eq_lastFrom]
  simpa using hs

/-- C3: a movement request whose delta would drive the product's current
quantity negative fails with `InsufficientStock`, appends nothing, and
leaves the current quantity unchanged. -/
theorem ledger_insufficient_stock (l : List StockMovement) (pid : Nat) (mt : MovementType)
    (delta : Int) (h : (currentQuantity l : Int) + delta < 0) :
    ledgerAppend l pid mt delta = Except.error PlaceError.InsufficientStock ∧
    ledgerCommit l pid (mt, delta) = l ∧
    currentQuantity (ledgerCommit l pid (mt, delta)) = currentQuantity l := by
  have ha : ledgerAppend l pid mt delta = Except.error PlaceError.InsufficientStock := by
    unfold ledgerAppend appendMovement
    simp [h]
  refine ⟨ha, ?_, ?_⟩ <;> simp [ledgerCommit, ha]

theorem ledger_insufficient_stock_witness :
    ((currentQuantity [] : Int) + (-1) < 0) ∧
    (ledgerAppend [] 1 MovementType.OUT (-1) = Except.error PlaceError.InsufficientStock ∧
     ledgerCommit [] 1 (MovementType.OUT, -1) = [] ∧
     currentQuantity (ledgerCommit [] 1 (MovementType.OUT, -1)) = currentQuantity []) :=
  ⟨by decide, ledger_insufficient_stock [] 1 MovementType.OUT (-1) (by decide)⟩

/-- C10: the persisted stock snapshots are non-negative by construction of
their field types — `previous_stock`, `new_stock` and `stock_quantity` are
`PositiveIntegerField`s — while the delta `quantity` is signed; hence no
committed movement records a negative before- or after-snapshot regardless
of the delta's sign. -/
theorem stock_snapshot_nonneg :
    (∀ m : StockMovement, 0 ≤ (m.previous_stock : Int) ∧ 0 ≤ (m.new_stock : Int)) ∧
    (∀ p : Product, 0 ≤ (p.stock_quantity : Int)) ∧
    (∀ (pid : Nat) (reqs : List (MovementType × Int)),
      ∀ m ∈ processRequests pid reqs,
        0 ≤ (m.previous_stock : Int) ∧ 0 ≤ (m.new_stock : Int)) :=
  ⟨fun _ => ⟨Int.natCast_nonneg _, Int.natCast_nonneg _⟩,
   fun _ => Int.natCast_nonneg _,
   fun _ _ _ _ => ⟨Int.natCast_nonneg _, Int.natCast_nonneg _⟩⟩

theorem stock_snapshot_nonneg_witness :
    demoLedgerMovement ∈ processRequests 1 [(MovementType.IN, 5)] ∧
    (0 ≤ (demoLedgerMovement.previous_stock : Int) ∧
     0 ≤ (demoLedgerMovement.new_stock : Int)) :=
  ⟨by decide,
   stock_snapshot_nonneg.2.2 1 [(MovementType.IN, 5)] demoLedgerMovement (by decide)⟩

/-! ## Hierarchy theorems -/

theorem create_default_cells_length (k : Nat) : (create_default_cells k).length = k := by
  simp [create_default_cells]

theorem create_default_cells_numbers (k : Nat) :
    (create_default_cells k).map (fun c => c.number) = List.range' 1 k := by
  rw [List.range'_eq_map_range]
  simp [create_default_cells, List.map_map, Nat.add_comm]

theorem mem_create_default_corridors {n : Nat} {co : Corridor}
    (h : co ∈ create_default_corridors n) :
    ∃ i, i < n ∧ co = saveNewCorridor (i + 1) cell_count_default := by
  simp only [create_default_corridors, List.mem_map, List.mem_range] at h
  obtain ⟨i, hi, rfl⟩ := h
  exact ⟨i, hi, rfl⟩

theorem mem_create_default_cells {k : Nat} {c : Cell} (h : c ∈ create_default_cells k) :
    ∃ j, j < k ∧ c.number = j + 1 := by
  simp only [create_default_cells, List.mem_map, List.mem_range] at h
  obtain ⟨j, hj, rfl⟩ := h
  exact ⟨j, hj, rfl⟩

/-- C5: the claim fails on the code.  `Warehouse.id` is a UUID primary key
whose default is applied at instantiation, so the `is_new` test in
`Warehouse.save` (`self.pk is None`) is always false and
`create_default_corridors` never runs: creating a warehouse with
`corridor_count = 5` yields 0 corridors, not 5 — and so for every corridor
count.  The `create_default_corridors` method body itself, had it been
invoked, would produce exactly `n` corridors numbered `1 .. n`, each with
the configured default cell count of cells numbered `1 .. cell_count`,
which is what the claim (and the spec) intend. -/
theorem create_warehouse_fanout :
    (createWarehouse "001" 5).corridors.length = 0 ∧
    (∀ (code : String) (n : Nat), (createWarehouse code n).corridors = []) ∧
    (∀ n : Nat,
      (create_default_corridors n).length = n ∧
      (create_default_corridors n).map (fun co => co.number) = List.range' 1 n ∧
      ∀ co ∈ create_default_corridors n,
        co.cell_count = cell_count_default ∧
        co.cells.length = co.cell_count ∧
        co.cells.map (fun c => c.number) = List.range' 1 co.cell_count) := by
  refine ⟨rfl, ?_, ?_⟩
  · intro code n
    simp [createWarehouse, warehouse_pk_is_none]
  · intro n
    refine ⟨?_, ?_, ?_⟩
    · simp [create_default_corridors]
    · rw [List.range'_eq_map_range]
      simp [create_default_corridors, List.map_map, saveNewCorridor, Nat.add_comm]
    · intro co hco
      obtain ⟨i, hi, rfl⟩ := mem_create_default_corridors hco
      exact ⟨rfl, create_default_cells_length _, create_default_cells_numbers _⟩

theorem create_warehouse_fanout_witness :
    (createWarehouse "001" 5).corridors.length = 0 ∧
    (create_default_corridors 3).length = 3 ∧
    saveNewCorridor 1 cell_count_default ∈ create_default_corridors 3 ∧
    (saveNewCorridor 1 cell_count_default).cells.length =
      (saveNewCorridor 1 cell_count_default).cell_count :=
  ⟨create_warehouse_fanout.1, (create_warehouse_fanout.2.2 3).1, by decide,
   ((create_warehouse_fanout.2.2 3).2.2 _ (by decide)).2.1⟩

/-- C9: the fan-out fields are bounded by their validators — `corridor_count`
only in 1..50 (default 5), `cell_count` only in 1..100 (default 10) — so
automatic creation yields at most 50 corridors per warehouse and at most 100
cells per corridor, with every generated sequence number inside the wider
validator ranges (corridor numbers to 100, cell numbers to 1000). -/
theorem fanout_validator_bounds :
    corridor_count_valid corridor_count_default = true ∧
    cell_count_valid cell_count_default = true ∧
    (∀ n, corridor_count_valid n = true → (create_default_corridors n).length ≤ 50) ∧
    (∀ k, cell_count_valid k = true → (create_default_cells k).length ≤ 100) ∧
    (∀ n, corridor_count_valid n = true →
      ∀ co ∈ create_default_corridors n,
        corridor_number_valid co.number = true ∧
        cell_count_valid co.cell_count = true ∧
        co.cells.length ≤ 100 ∧
        ∀ c ∈ co.cells, cell_number_valid c.number = true) ∧
    (corridor_number_valid 100 = true ∧ cell_number_valid 1000 = true ∧
     corridor_count_valid 51 = false ∧ cell_count_valid 101 = false) := by
  refine ⟨by decide, by decide, ?_, ?_, ?_, by decide⟩
  · intro n hn
    simp only [corridor_count_valid, decide_eq_true_eq] at hn
    have hl : (create_default_corridors n).length = n := by simp [create_default_corridors]
    omega
  · intro k hk
    simp only [cell_count_valid, decide_eq_true_eq] at hk
    have hl : (create_default_cells k).length = k := create_default_cells_length k
    omega
  · intro n hn co hco
    obtain ⟨i, hi, rfl⟩ := mem_create_default_corridors hco
    simp only [corridor_count_valid, decide_eq_true_eq] at hn
    refine ⟨?_, ?_, ?_, ?_⟩
    · simp only [saveNewCorridor, corridor_number_valid, decide_eq_true_eq]
      omega
    · simp only [saveNewCorridor]
      decide
    · simp [saveNewCorridor, create_default_cells_length, cell_count_default]
    · intro c hc
      obtain ⟨j, hj, hcn⟩ := mem_create_default_cells (by simpa [saveNewCorridor] using hc)
      simp only [cell_number_valid, decide_eq_true_eq, hcn]
      simp only [cell_count_default] at hj
      omega

theorem fanout_validator_bounds_witness :
    corridor_count_valid 50 = true ∧
    ((create_default_corridors 50).length ≤ 50 ∧ (create_default_cells 100).length ≤ 100) :=
  ⟨by decide,
   ⟨fanout_validator_bounds.2.2.1 50 (by decide),
    fanout_validator_bounds.2.2.2.1 100 (by decide)⟩⟩

/-- C7: a corridor's occupancy rate is `occupied / total * 100` (0 for an
empty corridor), and the warehouse-level rate divides the summed
occupied-cell and total-cell counts of its corridors — it is not the mean of
the corridor rates, as the concrete `demoRateWarehouse` shows. -/
theorem occupancy_rate_aggregation :
    (∀ co : Corridor, co.cells.length = 0 → Corridor.occupancy_rate co = 0) ∧
    (∀ co : Corridor, co.cells.length ≠ 0 →
      Corridor.occupancy_rate co =
        ((Corridor.occupied_cells co : Rat) / (co.cells.length : Rat)) * 100) ∧
    (∀ w : Warehouse,
      Warehouse.occupied_cells w = (w.corridors.map Corridor.occupied_cells).sum ∧
      Warehouse.total_cells w = (w.corridors.map (fun co => co.cells.length)).sum) ∧
    (∀ w : Warehouse, Warehouse.total_cells w ≠ 0 →
      Warehouse.occupancy_rate w =
        (((w.corridors.map Corridor.occupied_cells).sum : Rat) /
          ((w.corridors.map (fun co => co.cells.length)).sum : Rat)) * 100) ∧
    Warehouse.occupancy_rate demoRateWarehouse ≠ corridorRateAverage demoRateWarehouse := by
  refine ⟨?_, ?_, ?_, ?_, ?_⟩
  · intro co h; simp [Corridor.occupancy_rate, h]
  · intro co h; simp [Corridor.occupancy_rate, h]
  · intro w; exact ⟨rfl, rfl⟩
  · intro w h
    unfold Warehouse.occupancy_rate
    rw [if_neg h]
    simp [Warehouse.occupied_cells, Warehouse.total_cells, Function.comp_def]
  · have h1 : Warehouse.occupancy_rate demoRateWarehouse = 25 := by
      norm_num [Warehouse.occupancy_rate, Warehouse.total_cells, Warehouse.occupied_cells,
        Corridor.occupied_cells, demoRateWarehouse, demoOccCell, demoFreeCell, List.filter]
    have h2 : corridorRateAverage demoRateWarehouse = 50 := by
      norm_num [corridorRateAverage, Corridor.occupancy_rate, Corridor.occupied_cells,
        demoRateWarehouse, demoOccCell, demoFreeCell, List.filter]
    rw [h1, h2]
    norm_num

theorem occupancy_rate_aggregation_witness :
    Corridor.occupancy_rate demoEmptyCorridor = 0 ∧
    Warehouse.occupancy_rate demoRateWarehouse =
      (((demoRateWarehouse.corridors.map Corridor.occupied_cells).sum : Rat) /
        ((demoRateWarehouse.corridors.map (fun co => co.cells.length)).sum : Rat)) * 100 :=
  ⟨occupancy_rate_aggregation.1 demoEmptyCorridor rfl,
   occupancy_rate_aggregation.2.2.2.1 demoRateWarehouse (by decide)⟩

/-! ## Location code theorems -/

theorem digitChar_ne_dash (d : Nat) (h : d < 10) : digitChar d ≠ Char.ofNat 45 := by
  interval_cases d <;> decide

theorem digitChar_val (d : Nat) (h : d < 10) : (digitChar d).toNat - 48 = d := by
  interval_cases d <;> rfl

theorem mem_decCharsAux {c : Char} :
    ∀ {fuel n : Nat}, c ∈ decCharsAux fuel n → ∃ d, d < 10 ∧ c = digitChar d := by
  intro fuel
  induction fuel with
  | zero => intro n h; simp [decCharsAux] at h
  | succ f ih =>
    intro n h
    unfold decCharsAux at h
    by_cases h0 : n = 0
    · simp [h0] at h
    · simp only [h0, if_false, List.mem_append, List.mem_singleton] at h
      cases h with
      | inl h2 => exact ih h2
      | inr h2 => exact ⟨n % 10, Nat.mod_lt _ (by norm_num), h2⟩

theorem charsVal_append_singleton (l : List Char) (c : Char) :
    charsVal (l ++ [c]) = 10 * charsVal l + (c.toNat - 48) := by
  simp [charsVal, List.foldl_append]

theorem charsVal_decCharsAux : ∀ fuel n : Nat, n ≤ fuel → charsVal (decCharsAux fuel n) = n := by
  intro fuel
  induction fuel with
  | zero => intro n h; have : n = 0 := Nat.le_zero.mp h; simp [this, decCharsAux, charsVal]
  | succ f ih =>
    intro n h
    unfold decCharsAux
    by_cases h0 : n = 0
    · simp [h0, charsVal]
    · simp only [h0, if_false]
      rw [charsVal_append_singleton]
      have hlt : n / 10 < n := Nat.div_lt_self (Nat.pos_of_ne_zero h0) (by norm_num)
      rw [ih (n / 10) (by omega), digitChar_val (n % 10) (Nat.mod_lt _ (by norm_num))]
      omega

theorem charsVal_decChars (n : Nat) : charsVal (decChars n) = n := by
  unfold decChars
  by_cases h : n = 0
  · simp [h]; rfl
  · simp only [h, if_false]
    exact charsVal_decCharsAux (n + 1) n (Nat.le_succ n)

theorem charsVal_replicate_zero_append (k : Nat) (l : List Char) :
    charsVal (List.replicate k (Char.ofNat 48) ++ l) = charsVal l := by
  induction k with
  | zero => simp
  | succ k2 ih =>
    rw [List.replicate_succ, List.cons_append]
    show charsVal (List.replicate k2 (Char.ofNat 48) ++ l) = charsVal l
    exact ih

theorem charsVal_zpad (w n : Nat) : charsVal (zpad w n) = n := by
  unfold zpad
  rw [show ('0' : Char) = Char.ofNat 48 from rfl, charsVal_replicate_zero_append,
    charsVal_decChars]

theorem zpad_inj {w a b : Nat} (h : zpad w a = zpad w b) : a = b := by
  have h2 := congrArg charsVal h
  rwa [charsVal_zpad, charsVal_zpad] at h2

theorem mem_decChars {n : Nat} {c : Char} (h : c ∈ decChars n) :
    ∃ d, d < 10 ∧ c = digitChar d := by
  unfold decChars at h
  by_cases h0 : n = 0
  · simp [h0] at h
    exact ⟨0, by norm_num, by rw [h]; rfl⟩
  · simp only [h0, if_false] at h
    exact mem_decCharsAux h

theorem zpad_no_dash {w n : Nat} {c : Char} (h : c ∈ zpad w n) : c ≠ Char.ofNat 45 := by
  unfold zpad at h
  rw [List.mem_append] at h
  cases h with
  | inl h2 =>
    have := List.eq_of_mem_replicate h2
    subst this
    decide
  | inr h2 =>
    obtain ⟨d, hd, rfl⟩ := mem_decChars h2
    exact digitChar_ne_dash d hd

theorem append_dash_inj :
    ∀ (l1 l2 r1 r2 : List Char),
      (∀ c ∈ l1, c ≠ Char.ofNat 45) → (∀ c ∈ l2, c ≠ Char.ofNat 45) →
      l1 ++ Char.ofNat 45 :: r1 = l2 ++ Char.ofNat 45 :: r2 → l1 = l2 ∧ r1 = r2 := by
  intro l1
  induction l1 with
  | nil =>
    intro l2 r1 r2 h1 h2 h
    cases l2 with
    | nil =>
      simp only [List.nil_append] at h
      injection h with _ h3
      exact ⟨rfl, h3⟩
    | cons b t =>
      simp only [List.nil_append, List.cons_append] at h
      injection h with hb _
      exact absurd hb.symm (h2 b (by simp))
  | cons a t ih =>
    intro l2 r1 r2 h1 h2 h
    cases l2 with
    | nil =>
      simp only [List.nil_append, List.cons_append] at h
      injection h with hb _
      exact absurd hb (h1 a (by simp))
    | cons b t2 =>
      simp only [List.cons_append] at h
      injection h with hab hrest
      obtain ⟨ht, hr⟩ := ih t2 r1 r2 (fun c hc => h1 c (List.mem_cons_of_mem _ hc))
        (fun c hc => h2 c (List.mem_cons_of_mem _ hc)) hrest
      exact ⟨by rw [hab, ht], hr⟩

/-- C6: the location code is exactly
`W<warehouseCode>-C<corridor number, zero-padded to width 2>-H<cell number,
zero-padded to width 3>`, computed from the stored fields alone, and two
cells of the same warehouse with distinct `(corridor number, cell number)`
positions (as the `unique_together` constraints guarantee for distinct
cells) have distinct codes. -/
theorem location_code_format_unique :
    (∀ (w : Warehouse) (co : Corridor) (c : Cell),
      location_code w co c =
        "W" ++ w.code ++ "-C" ++ String.mk (zpad 2 co.number) ++ "-H" ++
          String.mk (zpad 3 c.number)) ∧
    (∀ (w : Warehouse) (co1 co2 : Corridor) (c1 c2 : Cell),
      co1.number ≠ co2.number ∨ c1.number ≠ c2.number →
      location_code w co1 c1 ≠ location_code w co2 c2) ∧
    location_code demoCodeWarehouse demoCodeCorridor demoCodeCell = "W001-C02-H007" := by
  refine ⟨?_, ?_, ?_⟩
  · intro w co c
    rcases w with ⟨⟨cd⟩, cc, cos, ia⟩
    have happ : ∀ l1 l2 : List Char, String.mk l1 ++ String.mk l2 = String.mk (l1 ++ l2) :=
      fun _ _ => rfl
    rw [show ("W" : String) = String.mk ['W'] from rfl,
      show ("-C" : String) = String.mk ['-', 'C'] from rfl,
      show ("-H" : String) = String.mk ['-', 'H'] from rfl]
    show String.mk _ = _
    rw [happ, happ, happ, happ, happ]
    apply congrArg
    simp [List.append_assoc]
  · intro w co1 co2 c1 c2 hne heq
    unfold location_code at heq
    have hdata := congrArg String.data heq
    simp only [] at hdata
    injection hdata with _ h2
    have h3 := List.append_cancel_left h2
    injection h3 with _ h4
    injection h4 with _ h5
    obtain ⟨hz2, hr⟩ := append_dash_inj _ _ _ _
      (fun c hc => zpad_no_dash hc) (fun c hc => zpad_no_dash hc) h5
    injection hr with _ hr2
    cases hne with
    | inl hne2 => exact hne2 (zpad_inj hz2)
    | inr hne2 => exact hne2 (zpad_inj hr2)
  · decide

theorem location_code_format_unique_witness :
    location_code demoCodeWarehouse demoCodeCorridor demoCodeCell = "W001-C02-H007" ∧
    location_code demoCodeWarehouse demoCodeCorridor demoCodeCell ≠
      location_code demoCodeWarehouse demoCodeCorridorB demoCodeCell :=
  ⟨location_code_format_unique.2.2,
   location_code_format_unique.2.1 demoCodeWarehouse demoCodeCorridor demoCodeCorridorB
     demoCodeCell demoCodeCell (Or.inl (by decide))⟩

/-! ## Placement coordinator theorems -/

theorem matchesKey_iff (p : ProductLocation) (pid cid : Nat) (batch : Option String) :
    matchesKey p pid cid batch = true ↔ plKey p = (pid, cid, batch) := by
  simp [matchesKey, plKey, Prod.ext_iff]

theorem matchesKey_cell {p : ProductLocation} {pid cid : Nat} {batch : Option String}
    (h : matchesKey p pid cid batch = true) : p.cell = cid := by
  simp only [matchesKey, decide_eq_true_eq] at h
  exact h.2.1

theorem setPlacement_filter_ne (pls : List ProductLocation) (pid cid : Nat)
    (batch : Option String) (qty : Nat) (other : Nat) (h : other ≠ cid) :
    (setPlacement pls pid cid batch qty).filter (fun p => p.cell == other) =
      pls.filter (fun p => p.cell == other) := by
  induction pls with
  | nil =>
    unfold setPlacement
    have hb : (cid == other) = false := beq_eq_false_iff_ne.mpr (Ne.symm h)
    by_cases hq : qty = 0 <;> simp [hq, List.filter_cons, hb]
  | cons p rest ih =>
    unfold setPlacement
    cases hk : matchesKey p pid cid batch with
    | true =>
      have hcell : p.cell = cid := matchesKey_cell hk
      have hb : (p.cell == other) = false := by
        rw [hcell]
        exact beq_eq_false_iff_ne.mpr (Ne.symm h)
      by_cases hq : qty = 0 <;> simp [hq, List.filter_cons, hb]
    | false =>
      simp only [Bool.false_eq_true, if_false, List.filter_cons]
      cases hpo : (p.cell == other) with
      | true => simp [ih]
      | false => simp [ih]

theorem cellQuantitySum_setPlacement_ne (pls : List ProductLocation) (pid cid : Nat)
    (batch : Option String) (qty : Nat) (other : Nat) (h : other ≠ cid) :
    cellQuantitySum (setPlacement pls pid cid batch qty) other = cellQuantitySum pls other := by
  unfold cellQuantitySum
  rw [setPlacement_filter_ne pls pid cid batch qty other h]

theorem mem_plKey_setPlacement {pls : List ProductLocation} {pid cid : Nat}
    {batch : Option String} {qty : Nat} {k : Nat × Nat × Option String}
    (hm : k ∈ (setPlacement pls pid cid batch qty).map plKey) :
    k ∈ pls.map plKey ∨ k = (pid, cid, batch) := by
  induction pls with
  | nil =>
    unfold setPlacement at hm
    by_cases hq : qty = 0
    · simp [hq] at hm
    · simp [hq, plKey] at hm
      exact Or.inr hm
  | cons p rest ih =>
    unfold setPlacement at hm
    simp only [List.map_cons, List.mem_cons]
    by_cases hk : matchesKey p pid cid batch = true
    · rw [if_pos hk] at hm
      by_cases hq : qty = 0
      · rw [if_pos hq] at hm
        exact Or.inl (Or.inr hm)
      · rw [if_neg hq] at hm
        simp only [List.map_cons, List.mem_cons] at hm
        cases hm with
        | inl h2 => exact Or.inl (Or.inl (by rw [h2]; rfl))
        | inr h2 => exact Or.inl (Or.inr h2)
    · rw [if_neg hk] at hm
      simp only [List.map_cons, List.mem_cons] at hm
      cases hm with
      | inl h2 => exact Or.inl (Or.inl h2)
      | inr h2 =>
        cases ih h2 with
        | inl h3 => exact Or.inl (Or.inr h3)
        | inr h3 => exact Or.inr h3

theorem setPlacement_nodup (pls : List ProductLocation) (pid cid : Nat)
    (batch : Option String) (qty : Nat) (h : (pls.map plKey).Nodup) :
    ((setPlacement pls pid cid batch qty).map plKey).Nodup := by
  induction pls with
  | nil =>
    unfold setPlacement
    by_cases hq : qty = 0 <;> simp [hq]
  | cons p rest ih =>
    simp only [List.map_cons, List.nodup_cons] at h
    obtain ⟨hp, hrest⟩ := h
    unfold setPlacement
    by_cases hk : matchesKey p pid cid batch = true
    · rw [if_pos hk]
      by_cases hq : qty = 0
      · rw [if_pos hq]
        exact hrest
      · rw [if_neg hq]
        simp only [List.map_cons, List.nodup_cons]
        have hkey : plKey { p with quantity := qty } = plKey p := rfl
        rw [hkey]
        exact ⟨hp, hrest⟩
    · rw [if_neg hk]
      simp only [List.map_cons, List.nodup_cons]
      refine ⟨?_, ih hrest⟩
      intro hmem
      cases mem_plKey_setPlacement hmem with
      | inl h2 => exact hp h2
      | inr h2 => exact hk ((matchesKey_iff p pid cid batch).mpr h2)

theorem setPlacement_length (pls : List ProductLocation) (pid cid : Nat)
    (batch : Option String) (qty : Nat) (p : ProductLocation) (hq : qty ≠ 0)
    (hf : findPlacement pls pid cid batch = some p) :
    (setPlacement pls pid cid batch qty).length = pls.length := by
  induction pls with
  | nil => simp [findPlacement] at hf
  | cons a rest ih =>
    unfold setPlacement
    unfold findPlacement at hf
    rw [List.find?_cons] at hf
    cases hk : matchesKey a pid cid batch with
    | true => simp [hq]
    | false =>
      rw [hk] at hf
      simp only [Bool.false_eq_true, if_false, List.length_cons]
      rw [ih hf]

theorem place_ok_inv {st st' : CoordState} {pid cid : Nat} {delta : Int}
    {batch : Option String} {w v : Rat} {n : Nat}
    (h : place st pid cid delta batch w v = Except.ok (st', n)) :
    ∃ qty m, st' = commitPlacement st pid cid batch qty m := by
  unfold place at h
  split at h
  · simp at h
  · simp at h
  · split at h
    · simp at h
    · split at h
      · simp at h
      · split at h
        · simp at h
        · simp only [Except.ok.injEq, Prod.mk.injEq] at h
          exact ⟨_, _, h.1.symm⟩

theorem relocate_ok_inv {st st' : CoordState} {pid src dst q : Nat}
    {batch : Option String} {w v : Rat}
    (h : relocate st pid src dst q batch w v = Except.ok st') :
    ∃ st1 n1 n2, place st pid src (-(q : Int)) batch w v = Except.ok (st1, n1) ∧
      place st1 pid dst (q : Int) batch w v = Except.ok (st', n2) := by
  unfold relocate at h
  split at h
  · simp at h
  · rename_i st1 n1 heq1
    split at h
    · simp at h
    · rename_i st2 n2 heq2
      simp only [Except.ok.injEq] at h
      subst h
      exact ⟨st1, n1, n2, heq1, heq2⟩

theorem commitPlacement_occ (st : CoordState) (pid cid : Nat) (batch : Option String)
    (qty : Nat) (m : StockMovement) (h : OccInvB st = true) :
    OccInvB (commitPlacement st pid cid batch qty m) = true := by
  simp only [OccInvB, List.all_eq_true] at h ⊢
  intro c hc
  simp only [commitPlacement, List.mem_map] at hc
  obtain ⟨a, ha, rfl⟩ := hc
  cases hid : (a.id == cid) with
  | true =>
    have heq : a.id = cid := by simpa using hid
    simp only [commitPlacement, hid, if_true, heq]
    simp
  | false =>
    have hne : a.id ≠ cid := by simpa using hid
    simp only [commitPlacement, hid, Bool.false_eq_true, if_false]
    rw [cellQuantitySum_setPlacement_ne _ _ _ _ _ _ hne]
    exact h a ha

theorem reachable_inv (st : CoordState) (h : Reachable st) :
    OccInvB st = true ∧ (st.product_locations.map plKey).Nodup := by
  induction h with
  | init products cells hc =>
    refine ⟨?_, by simp⟩
    simp only [OccInvB, List.all_eq_true]
    intro c hcm
    have hz : cellQuantitySum [] c.id = 0 := rfl
    simp [hz, hc c hcm]
  | placeStep hr hstep ih =>
    obtain ⟨qty, m, rfl⟩ := place_ok_inv hstep
    refine ⟨commitPlacement_occ _ _ _ _ _ _ ih.1, ?_⟩
    exact setPlacement_nodup _ _ _ _ _ ih.2
  | relocateStep hr hstep ih =>
    obtain ⟨st1, n1, n2, h1, h2⟩ := relocate_ok_inv hstep
    obtain ⟨q1, m1, hst1⟩ := place_ok_inv h1
    obtain ⟨q2, m2, hst2⟩ := place_ok_inv h2
    subst hst1
    subst hst2
    refine ⟨commitPlacement_occ _ _ _ _ _ _ (commitPlacement_occ _ _ _ _ _ _ ih.1), ?_⟩
    exact setPlacement_nodup _ _ _ _ _ (setPlacement_nodup _ _ _ _ _ ih.2)

/-- C1: in every state reachable by committed coordinator operations from a
fresh hierarchy, each cell's `is_occupied` flag is true exactly when the
placements in that cell sum to a positive quantity. -/
theorem occupancy_flag_invariant (st : CoordState) (h : Reachable st) : OccInvB st = true :=
  (reachable_inv st h).1

theorem occupancy_flag_invariant_witness : OccInvB demoAfterPlace = true :=
  occupancy_flag_invariant demoAfterPlace
    (Reachable.placeStep (Reachable.init [demoInitProduct] [demoInitCell] (by decide))
      (show place demoInit 1 1 5 none 1 0 = Except.ok (demoAfterPlace, 5) from rfl))

/-- C8: every reachable state holds at most one `ProductLocation` row per
`(product, cell, batch)` key, and the upsert of an existing key mutates the
row in place — the table size does not grow. -/
theorem placement_key_unique :
    (∀ st : CoordState, Reachable st → (st.product_locations.map plKey).Nodup) ∧
    (∀ (pls : List ProductLocation) (pid cid : Nat) (batch : Option String) (qty : Nat)
      (p : ProductLocation), qty ≠ 0 → findPlacement pls pid cid batch = some p →
      (setPlacement pls pid cid batch qty).length = pls.length) :=
  ⟨fun st h => (reachable_inv st h).2,
   fun pls pid cid batch qty p hq hf => setPlacement_length pls pid cid batch qty p hq hf⟩

theorem placement_key_unique_witness :
    (demoAfterPlace.product_locations.map plKey).Nodup ∧
    (setPlacement demoPls 1 1 none 5).length = demoPls.length :=
  ⟨placement_key_unique.1 demoAfterPlace
    (Reachable.placeStep (Reachable.init [demoInitProduct] [demoInitCell] (by decide))
      (show place demoInit 1 1 5 none 1 0 = Except.ok (demoAfterPlace, 5) from rfl)),
   placement_key_unique.2 demoPls 1 1 none 5
     { product := 1, cell := 1, quantity := 3, batch_number := none } (by decide) rfl⟩

/-- C4: when the source debit of a relocation succeeds but the destination
cell fails capacity validation, the whole relocation fails and the
caller-observable state is exactly the original one — the source placement
rows and the product's total quantity are unchanged. -/
theorem relocation_rollback (st st1 : CoordState) (pid src dst q : Nat)
    (batch : Option String) (w v : Rat) (n1 : Nat) (dc : Cell) (p1 : Product) (e : PlaceError)
    (h1 : place st pid src (-(q : Int)) batch w v = Except.ok (st1, n1))
    (hq : 0 < q)
    (hfind : st1.cells.find? (fun c => c.id == dst) = some dc)
    (hprod : findProduct st1 pid = some p1)
    (hval : validatePlacement st1 dc w v = Except.error e) :
    runRelocate st pid src dst q batch w v = (st, some e) ∧
    (runRelocate st pid src dst q batch w v).1.product_locations = st.product_locations ∧
    productQuantity (runRelocate st pid src dst q batch w v).1 pid = productQuantity st pid := by
  have hq2 : (0 : Int) < (q : Int) := by exact_mod_cast hq
  have hplace2 : place st1 pid dst (q : Int) batch w v = Except.error e := by
    unfold place
    rw [hfind, hprod]
    simp only [if_pos hq2, hval]
  have hrel : relocate st pid src dst q batch w v = Except.error e := by
    simp only [relocate, h1, hplace2]
  have hrun : runRelocate st pid src dst q batch w v = (st, some e) := by
    unfold runRelocate
    rw [hrel]
  exact ⟨hrun, by rw [hrun], by rw [hrun]⟩

theorem existingWeight_demoState1 : existingWeight demoState1 2 = 0 := by
  simp [existingWeight, demoState1, List.filter_cons]

theorem weightExceeded_demoState1 : weightExceeded demoState1 demoDstCell 1 = true := by
  unfold weightExceeded
  rw [show demoDstCell.max_weight = some 0 from rfl, show demoDstCell.id = 2 from rfl]
  show decide ((0 : Rat) < existingWeight demoState1 2 + 1) = true
  rw [existingWeight_demoState1]
  norm_num

theorem demoDstCell_rejects :
    validatePlacement demoState1 demoDstCell 1 0 = Except.error PlaceError.CapacityExceeded := by
  unfold validatePlacement
  rw [if_neg (by decide), if_neg (by decide), if_pos weightExceeded_demoState1]

theorem relocation_rollback_witness :
    runRelocate demoState 1 1 2 3 none 1 0 = (demoState, some PlaceError.CapacityExceeded) ∧
    (runRelocate demoState 1 1 2 3 none 1 0).1.product_locations = demoState.product_locations ∧
    productQuantity (runRelocate demoState 1 1 2 3 none 1 0).1 1 =
      productQuantity demoState 1 :=
  relocation_rollback demoState demoState1 1 1 2 3 none 1 0 7 demoDstCell
    { id := 1, stock_quantity := 7, weight := some 1, length := none, width := none,
      height := none }
    PlaceError.CapacityExceeded rfl (by decide) rfl rfl demoDstCell_rejects

end WMS

